import Mathlib

/-
Verification of the credential-resolution and token-refresh layer of
google-cloud-cpp's storage OAuth2 code, via a shallow embedding in Lean 4.

Embedded sources:
  * google/cloud/storage/oauth2/compute_engine_credentials.cc
      (ParseMetadataServerResponse, ParseComputeEngineRefreshResponse)
  * google/cloud/storage/oauth2/google_credentials.cc
      (LoadCredsFromPath, MaybeLoadCredsFromAdcPaths, GoogleDefaultCredentials,
       CreateServiceAccountCredentials* factory functions)

External collaborators (the JSON parser, the filesystem, the P12 and
credential-info parsers, the environment variables and the GCE probe) are
modelled as explicit parameters, so every theorem quantifies over their
behavior.  C++ exceptions thrown by the nlohmann JSON accessors are modelled
explicitly via an `Outcome.thrown` error branch, so no failure mode of the
source is hidden.
-/

namespace GoogleCreds

/-- JSON value tree produced by the external JSON parsing collaborator
(`nl::json`).  Numbers are modelled as integers, matching the whole-second
`expires_in` usage in the source. -/
inductive NlJson where
  | null : NlJson
  | boolVal (b : Bool) : NlJson
  | num (n : Int) : NlJson
  | str (s : String) : NlJson
  | arr (elems : List NlJson) : NlJson
  | obj (members : List (String × NlJson)) : NlJson

/-- First-match lookup in a JSON object member list. -/
def jlookup : List (String × NlJson) → String → Option NlJson
  | [], _ => none
  | (k, v) :: rest, key => if k = key then some v else jlookup rest key

/-- `json::count(key)`: 1 when the value is an object containing `key`,
otherwise 0 (non-objects report 0 for every key). -/
def jcount (j : NlJson) (key : String) : Nat :=
  match j with
  | .obj ms => if (jlookup ms key).isSome then 1 else 0
  | _ => 0

/-- `json::value(key, stringDefault)`: the string at `key` when present, the
default when absent; throws when the value is present but not a string, or
when the receiver is not an object. -/
def jvalueStr : NlJson → String → String → Except String String
  | .obj ms, key, dflt =>
    match jlookup ms key with
    | none => .ok dflt
    | some (.str s) => .ok s
    | some _ => .error "type_error.302: type must be string"
  | _, _, _ => .error "type_error.306: cannot use value() with this type"

/-- `json::value(key, intDefault)`: the integer at `key` when present, the
default when absent; throws when the value is present but not a number, or
when the receiver is not an object. -/
def jvalueInt : NlJson → String → Int → Except String Int
  | .obj ms, key, dflt =>
    match jlookup ms key with
    | none => .ok dflt
    | some (.num n) => .ok n
    | some _ => .error "type_error.302: type must be number"
  | _, _, _ => .error "type_error.306: cannot use value() with this type"

/-- `json::operator[](key)` on a const object known to contain `key`. -/
def jat (j : NlJson) (key : String) : Option NlJson :=
  match j with
  | .obj ms => jlookup ms key
  | _ => none

/-- `json::get<std::string>()`. -/
def asString : NlJson → Except String String
  | .str s => .ok s
  | _ => .error "type_error.302: type must be string"

/-- Element-wise string extraction for `json::get<std::set<std::string>>()`. -/
def asStringList : List NlJson → Except String (List String)
  | [] => .ok []
  | .str s :: rest => (asStringList rest).map fun r => s :: r
  | _ :: _ => .error "type_error.302: type must be string"

/-- The subset of `StatusCode` values this layer produces. -/
inductive StatusCode where
  | kOk : StatusCode
  | kInvalidArgument : StatusCode
  | kUnknown : StatusCode
  deriving DecidableEq, Repr

/-- `google::cloud::Status`: a code plus a message. -/
structure Status where
  code : StatusCode
  message : String
  deriving DecidableEq, Repr

/-- `storage::internal::HttpResponse`. -/
structure HttpResponse where
  status_code : Nat
  payload : String
  headers : List (String × String)
  deriving DecidableEq, Repr

/-- The two ways an embedded C++ function can fail to return a value: a
`Status` error carried by `StatusOr`, or a C++ exception escaping (thrown by
the nlohmann JSON accessors on type mismatches). -/
inductive Outcome where
  | status (s : Status) : Outcome
  | thrown (what : String) : Outcome
  deriving DecidableEq, Repr

/-- Lift a JSON-accessor result into the embedded C++ outcome monad,
mapping a thrown library exception to `Outcome.thrown`. -/
def jexc {α : Type} : Except String α → Except Outcome α
  | .ok a => .ok a
  | .error e => .error (.thrown e)

/-- Modelled from the spec: `AsStatus` (declared in repository code outside
the provided sources) turns an HTTP response into a classified error `Status`
whose message embeds the original response payload — the spec requires "a
classified error whose message embeds the *original, unmodified* response
payload appended with a human-readable explanation", and the explanation is
appended to the payload by the callers before invoking `AsStatus`.  The
precise error classification is not specified; only that the result is an
error carrying the payload text as its message. -/
def AsStatus (r : HttpResponse) : Status :=
  ⟨StatusCode.kUnknown, r.payload⟩

/-- `RefreshingCredentialsWrapper::TemporaryToken`; the expiration
`time_point` is modelled as seconds (an integer). -/
structure TemporaryToken where
  token : String
  expiration : Int
  deriving DecidableEq, Repr

/-- `ServiceAccountMetadata`: email plus a set of scopes (modelled as a
duplicate-free list). -/
structure ServiceAccountMetadata where
  email : String
  scopes : List String
  deriving DecidableEq, Repr

/-- The literal message appended by `ParseMetadataServerResponse`. -/
def kMetadataFieldsMsg : String :=
  "Could not find all required fields in response (email, scopes)."

/-- The literal message appended by `ParseComputeEngineRefreshResponse`. -/
def kRefreshFieldsMsg : String :=
  "Could not find all required fields in response (access_token, expires_in, token_type)."

/-- Embedding of `ParseMetadataServerResponse` from
compute_engine_credentials.cc, parameterized by the JSON parsing collaborator
(`parse s = none` models `is_discarded()`). -/
def ParseMetadataServerResponse (parse : String → Option NlJson)
    (response : HttpResponse) : Except Outcome ServiceAccountMetadata :=
  match parse response.payload with
  | none =>
      .error (.status (AsStatus ⟨response.status_code,
        response.payload ++ kMetadataFieldsMsg, response.headers⟩))
  | some response_body =>
      if jcount response_body "email" = 0 ∨ jcount response_body "scopes" = 0 then
        .error (.status (AsStatus ⟨response.status_code,
          response.payload ++ kMetadataFieldsMsg, response.headers⟩))
      else
        match jvalueStr response_body "email" "" with
        | .error e => .error (.thrown e)
        | .ok email =>
          match jat response_body "scopes" with
          | none => .error (.thrown "undefined operator[] on missing key")
          | some (.arr elems) =>
            match asStringList elems with
            | .error e => .error (.thrown e)
            | .ok strs => .ok ⟨email, strs.dedup⟩
          | some other =>
            match asString other with
            | .error e => .error (.thrown e)
            | .ok s => .ok ⟨email, [s]⟩

/-- Embedding of `ParseComputeEngineRefreshResponse` from
compute_engine_credentials.cc, parameterized by the JSON parsing
collaborator; `now` is the refresh time in seconds. -/
def ParseComputeEngineRefreshResponse (parse : String → Option NlJson)
    (response : HttpResponse) (now : Int) : Except Outcome TemporaryToken :=
  match parse response.payload with
  | none =>
      .error (.status (AsStatus ⟨response.status_code,
        response.payload ++ kRefreshFieldsMsg, response.headers⟩))
  | some access_token =>
      if jcount access_token "access_token" = 0 ∨ jcount access_token "expires_in" = 0 ∨
          jcount access_token "token_type" = 0 then
        .error (.status (AsStatus ⟨response.status_code,
          response.payload ++ kRefreshFieldsMsg, response.headers⟩))
      else
        match jvalueStr access_token "token_type" "" with
        | .error e => .error (.thrown e)
        | .ok token_type =>
          match jvalueStr access_token "access_token" "" with
          | .error e => .error (.thrown e)
          | .ok token_value =>
            match jvalueInt access_token "expires_in" 0 with
            | .error e => .error (.thrown e)
            | .ok expires_in =>
              .ok ⟨"Authorization: " ++ token_type ++ " " ++ token_value,
                   now + expires_in⟩

/-- C2: for every HTTP response whose payload is well-formed JSON containing
(valid) `access_token`, `expires_in` and `token_type` fields,
`ParseComputeEngineRefreshResponse(response, now)` returns a token whose
header is exactly `"Authorization: " ++ token_type ++ " " ++ access_token`
and whose expiration is exactly `now + expires_in` seconds. -/
theorem refresh_interpreter_wellformed (parse : String → Option NlJson)
    (sc : Nat) (hdrs : List (String × String)) (payload : String) (now : Int)
    (ms : List (String × NlJson)) (tok tt : String) (n : Int)
    (hp : parse payload = some (.obj ms))
    (h1 : jlookup ms "access_token" = some (.str tok))
    (h2 : jlookup ms "expires_in" = some (.num n))
    (h3 : jlookup ms "token_type" = some (.str tt)) :
    ParseComputeEngineRefreshResponse parse ⟨sc, payload, hdrs⟩ now =
      .ok ⟨"Authorization: " ++ tt ++ " " ++ tok, now + n⟩ := by
  simp [ParseComputeEngineRefreshResponse, hp, jcount, jvalueStr, jvalueInt, h1, h2, h3]

/-- A concrete JSON parsing collaborator returning a well-formed refresh
body for every payload. -/
def refreshParseDemo : String → Option NlJson := fun _ =>
  some (.obj [("access_token", .str "abc"), ("expires_in", .num 3600),
              ("token_type", .str "Bearer")])

/-- Witness for C2 at a concrete response. -/
theorem refresh_interpreter_wellformed_witness :
    ParseComputeEngineRefreshResponse refreshParseDemo ⟨200, "tokenbody", []⟩ 1000 =
      .ok ⟨"Authorization: " ++ "Bearer" ++ " " ++ "abc", 1000 + 3600⟩ :=
  refresh_interpreter_wellformed refreshParseDemo 200 [] "tokenbody" 1000
    [("access_token", .str "abc"), ("expires_in", .num 3600), ("token_type", .str "Bearer")]
    "abc" "Bearer" 3600 rfl rfl rfl rfl

/-- A concrete JSON parsing collaborator reporting a negative `expires_in`. -/
def negativeTtlParseDemo : String → Option NlJson := fun _ =>
  some (.obj [("access_token", .str "abc"), ("expires_in", .num (-1)),
              ("token_type", .str "Bearer")])

/-- C3 counterexample: the claim that a successfully interpreted refresh
response is "never earlier than now, for all integer values of expires_in" is
false: at `expires_in = -1` the interpreter returns a token whose expiration
is `now - 1`, strictly before `now`. -/
theorem refresh_no_backdate_claim_false :
    ¬ (∀ (parse : String → Option NlJson) (r : HttpResponse) (now : Int)
        (tok : TemporaryToken),
        ParseComputeEngineRefreshResponse parse r now = .ok tok →
        now ≤ tok.expiration) := by
  intro h
  exact absurd
    (h negativeTtlParseDemo ⟨200, "negbody", []⟩ 0
      ⟨"Authorization: " ++ "Bearer" ++ " " ++ "abc", 0 + (-1)⟩ rfl)
    (by decide)

/-- C3 (amended): for every successfully interpreted refresh response, the
token's expiration equals `now` plus the server-reported `expires_in`, and it
is not earlier than `now` whenever the server-reported value is nonnegative. -/
theorem refresh_expiration_now_plus_ttl (parse : String → Option NlJson)
    (r : HttpResponse) (now : Int) (tok : TemporaryToken)
    (hok : ParseComputeEngineRefreshResponse parse r now = .ok tok) :
    ∃ j n, parse r.payload = some j ∧ jvalueInt j "expires_in" 0 = .ok n ∧
      tok.expiration = now + n ∧ (0 ≤ n → now ≤ tok.expiration) := by
  unfold ParseComputeEngineRefreshResponse at hok
  split at hok
  · exact absurd hok (by simp)
  · rename_i j hpp
    split at hok
    · exact absurd hok (by simp)
    · split at hok
      · exact absurd hok (by simp)
      · rename_i token_type h1
        split at hok
        · exact absurd hok (by simp)
        · rename_i token_value h2
          split at hok
          · exact absurd hok (by simp)
          · rename_i expires_in h3
            simp only [Except.ok.injEq] at hok
            have hexp : tok.expiration = now + expires_in := by rw [← hok]
            exact ⟨j, expires_in, hpp, h3, hexp, fun hn => by omega⟩

/-- Witness for the amended C3 at a concrete response. -/
theorem refresh_expiration_now_plus_ttl_witness :
    ∃ j n, refreshParseDemo "tokenbody" = some j ∧
      jvalueInt j "expires_in" 0 = .ok n ∧
      (5 : Int) + 3600 = 5 + n ∧ (0 ≤ n → (5 : Int) ≤ 5 + 3600) :=
  refresh_expiration_now_plus_ttl refreshParseDemo ⟨200, "tokenbody", []⟩ 5
    ⟨"Authorization: " ++ "Bearer" ++ " " ++ "abc", 5 + 3600⟩ rfl

/-- A concrete JSON parsing collaborator that always reports a parse failure
(`is_discarded()`). -/
def discardedParseDemo : String → Option NlJson := fun _ => none

/-- C4: on a JSON parse failure, or when any required field is absent, both
interpreters return an error whose message is exactly the original unmodified
payload followed by the human-readable list of the expected fields. -/
theorem interpreters_error_embeds_payload (parse : String → Option NlJson)
    (sc : Nat) (hdrs : List (String × String)) (payload : String) (now : Int)
    (hbad_meta : parse payload = none ∨
      ∃ j, parse payload = some j ∧ (jcount j "email" = 0 ∨ jcount j "scopes" = 0))
    (hbad_refresh : parse payload = none ∨
      ∃ j, parse payload = some j ∧ (jcount j "access_token" = 0 ∨
        jcount j "expires_in" = 0 ∨ jcount j "token_type" = 0)) :
    ParseMetadataServerResponse parse ⟨sc, payload, hdrs⟩ =
      .error (.status ⟨StatusCode.kUnknown, payload ++ kMetadataFieldsMsg⟩) ∧
    ParseComputeEngineRefreshResponse parse ⟨sc, payload, hdrs⟩ now =
      .error (.status ⟨StatusCode.kUnknown, payload ++ kRefreshFieldsMsg⟩) := by
  constructor
  · rcases hbad_meta with hnone | ⟨j, hj, hc⟩
    · simp [ParseMetadataServerResponse, hnone, AsStatus]
    · unfold ParseMetadataServerResponse
      rw [hj]
      simp only [if_pos hc]
      rfl
  · rcases hbad_refresh with hnone | ⟨j, hj, hc⟩
    · simp [ParseComputeEngineRefreshResponse, hnone, AsStatus]
    · unfold ParseComputeEngineRefreshResponse
      rw [hj]
      simp only [if_pos hc]
      rfl

/-- Witness for C4 at a concrete unparseable response. -/
theorem interpreters_error_embeds_payload_witness :
    ParseMetadataServerResponse discardedParseDemo ⟨500, "badbody", []⟩ =
      .error (.status ⟨StatusCode.kUnknown, "badbody" ++ kMetadataFieldsMsg⟩) ∧
    ParseComputeEngineRefreshResponse discardedParseDemo ⟨500, "badbody", []⟩ 0 =
      .error (.status ⟨StatusCode.kUnknown, "badbody" ++ kRefreshFieldsMsg⟩) :=
  interpreters_error_embeds_payload discardedParseDemo 500 [] "badbody" 0
    (Or.inl rfl) (Or.inl rfl)

/-- Helper: a successful refresh interpretation is unchanged when only the
status code or headers of the response change — success depends only on the
payload body. -/
lemma refresh_ok_payload_only (parse : String → Option NlJson)
    (r1 r2 : HttpResponse) (now : Int) (tok : TemporaryToken)
    (hpay : r1.payload = r2.payload)
    (h : ParseComputeEngineRefreshResponse parse r1 now = .ok tok) :
    ParseComputeEngineRefreshResponse parse r2 now = .ok tok := by
  unfold ParseComputeEngineRefreshResponse at h ⊢
  rw [← hpay]
  split at h
  · exact absurd h (by simp)
  · rename_i j hpp
    split at h
    · exact absurd h (by simp)
    · rename_i hc
      rw [if_neg hc]
      exact h

/-- C6: the refresh interpreter never rejects by status code alone — whether it
succeeds (and with which token) is unchanged under any change of status code;
every status code yields a success token when the payload carries the three
required fields; and a 200 response with an unparseable body still yields an
error. -/
theorem refresh_success_independent_of_status_code (parse : String → Option NlJson)
    (sc sc' : Nat) (hdrs : List (String × String)) (payload : String) (now : Int) :
    (∀ tok : TemporaryToken,
       ParseComputeEngineRefreshResponse parse ⟨sc, payload, hdrs⟩ now = .ok tok ↔
       ParseComputeEngineRefreshResponse parse ⟨sc', payload, hdrs⟩ now = .ok tok) ∧
    (∀ ms tokv tt n, parse payload = some (.obj ms) →
       jlookup ms "access_token" = some (.str tokv) →
       jlookup ms "expires_in" = some (.num n) →
       jlookup ms "token_type" = some (.str tt) →
       ParseComputeEngineRefreshResponse parse ⟨sc, payload, hdrs⟩ now =
         .ok ⟨"Authorization: " ++ tt ++ " " ++ tokv, now + n⟩) ∧
    (parse payload = none →
       ParseComputeEngineRefreshResponse parse ⟨200, payload, hdrs⟩ now =
         .error (.status ⟨StatusCode.kUnknown, payload ++ kRefreshFieldsMsg⟩)) := by
  refine ⟨?_, ?_, ?_⟩
  · intro tok
    constructor
    · exact refresh_ok_payload_only parse _ _ now tok rfl
    · exact refresh_ok_payload_only parse _ _ now tok rfl
  · intro ms tokv tt n hp h1 h2 h3
    simp [ParseComputeEngineRefreshResponse, hp, jcount, jvalueStr, jvalueInt, h1, h2, h3]
  · intro hnone
    simp [ParseComputeEngineRefreshResponse, hnone, AsStatus]

/-- Witness for C6: a non-200 status code still yields the success token, and
a 200 status code with an unparseable body still yields the error. -/
theorem refresh_success_independent_of_status_code_witness :
    ParseComputeEngineRefreshResponse refreshParseDemo ⟨404, "tokenbody", []⟩ 7 =
      .ok ⟨"Authorization: " ++ "Bearer" ++ " " ++ "abc", 7 + 3600⟩ ∧
    ParseComputeEngineRefreshResponse discardedParseDemo ⟨200, "malformedbody", []⟩ 7 =
      .error (.status ⟨StatusCode.kUnknown, "malformedbody" ++ kRefreshFieldsMsg⟩) := by
  constructor
  · exact (refresh_success_independent_of_status_code refreshParseDemo 404 200 []
      "tokenbody" 7).2.1
      [("access_token", .str "abc"), ("expires_in", .num 3600), ("token_type", .str "Bearer")]
      "abc" "Bearer" 3600 rfl rfl rfl rfl
  · exact (refresh_success_independent_of_status_code discardedParseDemo 200 404 []
      "malformedbody" 7).2.2 rfl

/-- Helper: `get<std::set<std::string>>` yields an empty set only from an
empty JSON array. -/
lemma asStringList_ok_nil {elems : List NlJson}
    (h : asStringList elems = .ok []) : elems = [] := by
  cases elems with
  | nil => rfl
  | cons x rest =>
    exfalso
    cases x with
    | str s =>
      have h' : Except.map (fun r => s :: r) (asStringList rest) = Except.ok [] := h
      cases hr : asStringList rest with
      | ok r => rw [hr] at h'; simp [Except.map] at h'
      | error e => rw [hr] at h'; simp [Except.map] at h'
    | null => exact Except.noConfusion h
    | boolVal b => exact Except.noConfusion h
    | num n => exact Except.noConfusion h
    | arr es => exact Except.noConfusion h
    | obj mems => exact Except.noConfusion h

/-- A concrete JSON parsing collaborator producing a metadata body whose
`scopes` field is an empty array. -/
def emptyScopesParseDemo : String → Option NlJson := fun _ =>
  some (.obj [("email", .str "sa@example"), ("scopes", .arr [])])

/-- C8 counterexample: the claim that every successfully interpreted metadata
response has a non-empty scopes set is false — a body whose `scopes` field is
an empty JSON array is interpreted successfully with an empty scopes set. -/
theorem metadata_scopes_nonempty_claim_false :
    ¬ (∀ (parse : String → Option NlJson) (r : HttpResponse)
        (m : ServiceAccountMetadata),
        ParseMetadataServerResponse parse r = .ok m → m.scopes ≠ []) := by
  intro h
  exact h emptyScopesParseDemo ⟨200, "emptyscopes", []⟩ ⟨"sa@example", []⟩ rfl rfl

/-- C8 (amended): a successfully interpreted metadata response has an empty
scopes set only when the server reported a literally empty `scopes` array; in
every other successful case (non-empty array, or a single string) the scopes
set is non-empty. -/
theorem metadata_scopes_empty_only_from_empty_array (parse : String → Option NlJson)
    (r : HttpResponse) (m : ServiceAccountMetadata)
    (hok : ParseMetadataServerResponse parse r = .ok m)
    (hempty : m.scopes = []) :
    ∃ j, parse r.payload = some j ∧ jat j "scopes" = some (.arr []) := by
  unfold ParseMetadataServerResponse at hok
  split at hok
  · exact absurd hok (by simp)
  · rename_i j hpp
    split at hok
    · exact absurd hok (by simp)
    · split at hok
      · exact absurd hok (by simp)
      · rename_i email hemail
        split at hok
        · exact absurd hok (by simp)
        · rename_i elems hsc
          split at hok
          · exact absurd hok (by simp)
          · rename_i strs hstrs
            simp only [Except.ok.injEq] at hok
            have hsde : strs.dedup = [] := by rw [← hok] at hempty; exact hempty
            have h0 : strs = [] := (List.dedup_eq_nil strs).mp hsde
            subst h0
            have h1 : elems = [] := asStringList_ok_nil hstrs
            subst h1
            exact ⟨j, hpp, hsc⟩
        · rename_i other hnotarr hsc
          split at hok
          · exact absurd hok (by simp)
          · rename_i s hs
            simp only [Except.ok.injEq] at hok
            rw [← hok] at hempty
            simp at hempty

/-- Witness for the amended C8 at the empty-scopes-array response. -/
theorem metadata_scopes_empty_only_from_empty_array_witness :
    ∃ j, emptyScopesParseDemo "emptyscopes" = some j ∧
      jat j "scopes" = some (.arr []) :=
  metadata_scopes_empty_only_from_empty_array emptyScopesParseDemo
    ⟨200, "emptyscopes", []⟩ ⟨"sa@example", []⟩ rfl rfl

/-- `ServiceAccountCredentialsInfo`: the parsed service-account material plus
the caller-override slots (`scopes`, `subject`).  Declared in repository code
outside the provided sources; only the override slots are inspected by the
embedded functions, the remaining fields are carried opaquely. -/
structure ServiceAccountCredentialsInfo where
  client_email : String
  private_key_id : String
  private_key : String
  token_uri : String
  scopes : Option (List String)
  subject : Option String
  deriving DecidableEq, Repr

/-- `AuthorizedUserCredentialsInfo`: parsed authorized-user material. -/
structure AuthorizedUserCredentialsInfo where
  client_id : String
  client_secret : String
  refresh_token : String
  deriving DecidableEq, Repr

/-- The credential object constructed by the factory functions, as a closed
set of variants. -/
inductive Credentials where
  | anonymous : Credentials
  | authorizedUser (info : AuthorizedUserCredentialsInfo) : Credentials
  | serviceAccount (info : ServiceAccountCredentialsInfo) : Credentials
  | computeEngine (service_account_email : Option String) : Credentials
  deriving DecidableEq, Repr

/-- The ambient collaborators of google_credentials.cc as explicit data: the
filesystem reads (`std::ifstream`; `none` models a file that cannot be
opened), the JSON parser, the repository's credential-material parsers
(`ParseServiceAccountP12File`, `ParseAuthorizedUserCredentials`,
`ParseServiceAccountCredentials` — declared outside the provided sources and
therefore kept fully abstract), the two ADC path sources (empty string means
"not available"), the filesystem existence probe, and the GCE probe. -/
structure World where
  readFile : String → Option String
  parseJson : String → Option NlJson
  ParseServiceAccountP12File : String → Except Status ServiceAccountCredentialsInfo
  ParseAuthorizedUserCredentials : String → String → Except Status AuthorizedUserCredentialsInfo
  ParseServiceAccountCredentials : String → String → Except Status ServiceAccountCredentialsInfo
  adcEnvVarPath : String
  adcWellKnownPath : String
  fileExists : String → Bool
  RunningOnComputeEngineVm : Bool

/-- The documentation link embedded in terminal resolver errors. -/
def kAdcLink : String :=
  "https://developers.google.com/identity/protocols/application-default-credentials"

/-- Embedding of `LoadCredsFromPath` from google_credentials.cc.  The result
`.ok none` models the `nullptr`-carrying success used as the "not a service
account file" sentinel. -/
def LoadCredsFromPath (w : World) (path : String) (non_service_account_ok : Bool)
    (service_account_scopes : Option (List String))
    (service_account_subject : Option String) :
    Except Outcome (Option Credentials) :=
  match w.readFile path with
  | none => .error (.status ⟨.kUnknown, "Cannot open credentials file " ++ path⟩)
  | some contents =>
    match w.parseJson contents with
    | none =>
      match w.ParseServiceAccountP12File path with
      | .error _ =>
        .error (.status ⟨.kInvalidArgument, "Invalid credentials file " ++ path⟩)
      | .ok info =>
        .ok (some (.serviceAccount { info with
          subject := service_account_subject, scopes := service_account_scopes }))
    | some cred_json =>
      match jvalueStr cred_json "type" "no type given" with
      | .error e => .error (.thrown e)
      | .ok cred_type =>
        if cred_type = "authorized_user" ∧ non_service_account_ok = true then
          if service_account_scopes.isSome ∨ service_account_subject.isSome then
            .ok none
          else
            match w.ParseAuthorizedUserCredentials contents path with
            | .error s => .error (.status s)
            | .ok info => .ok (some (.authorizedUser info))
        else if cred_type = "service_account" then
          match w.ParseServiceAccountCredentials contents path with
          | .error s => .error (.status s)
          | .ok info =>
            .ok (some (.serviceAccount { info with
              subject := service_account_subject, scopes := service_account_scopes }))
        else
          .error (.status ⟨.kInvalidArgument,
            "Unsupported credential type (" ++ cred_type ++
            ") when reading Application Default Credentials file from " ++ path ++ "."⟩)

/-- Embedding of `MaybeLoadCredsFromAdcPaths` from google_credentials.cc. -/
def MaybeLoadCredsFromAdcPaths (w : World) (non_service_account_ok : Bool)
    (service_account_scopes : Option (List String))
    (service_account_subject : Option String) :
    Except Outcome (Option Credentials) :=
  if w.adcEnvVarPath = "" then
    if w.adcWellKnownPath = "" then .ok none
    else if w.fileExists w.adcWellKnownPath = false then .ok none
    else LoadCredsFromPath w w.adcWellKnownPath non_service_account_ok
           service_account_scopes service_account_subject
  else
    LoadCredsFromPath w w.adcEnvVarPath non_service_account_ok
      service_account_scopes service_account_subject

/-- Embedding of `GoogleDefaultCredentials` from google_credentials.cc. -/
def GoogleDefaultCredentials (w : World) : Except Outcome Credentials :=
  match MaybeLoadCredsFromAdcPaths w true none none with
  | .error e => .error e
  | .ok (some creds) => .ok creds
  | .ok none =>
    if w.RunningOnComputeEngineVm = true then .ok (.computeEngine none)
    else .error (.status ⟨.kUnknown,
      "Could not automatically determine credentials. For more information, please see "
        ++ kAdcLink⟩)

/-- Embedding of the scope/subject overload of
`CreateServiceAccountCredentialsFromJsonFilePath`.  The source reads the file
without checking `is_open`, so an unopenable file yields empty contents. -/
def CreateServiceAccountCredentialsFromJsonFilePath (w : World) (path : String)
    (scopes : Option (List String)) (subject : Option String) :
    Except Outcome Credentials :=
  match w.ParseServiceAccountCredentials ((w.readFile path).getD "") path with
  | .error s => .error (.status s)
  | .ok info =>
    .ok (.serviceAccount { info with subject := subject, scopes := scopes })

/-- Embedding of the scope/subject overload of
`CreateServiceAccountCredentialsFromP12FilePath`. -/
def CreateServiceAccountCredentialsFromP12FilePath (w : World) (path : String)
    (scopes : Option (List String)) (subject : Option String) :
    Except Outcome Credentials :=
  match w.ParseServiceAccountP12File path with
  | .error s => .error (.status s)
  | .ok info =>
    .ok (.serviceAccount { info with subject := subject, scopes := scopes })

/-- Embedding of the scope/subject overload of
`CreateServiceAccountCredentialsFromFilePath`: try the JSON representation,
and on any failure fall back to the P12 representation. -/
def CreateServiceAccountCredentialsFromFilePath (w : World) (path : String)
    (scopes : Option (List String)) (subject : Option String) :
    Except Outcome Credentials :=
  match CreateServiceAccountCredentialsFromJsonFilePath w path scopes subject with
  | .ok credentials => .ok credentials
  | .error _ => CreateServiceAccountCredentialsFromP12FilePath w path scopes subject

/-- A concrete world: the environment variable names "envpath", and the file
there parses as JSON with type discriminator authorized_user. -/
def authorizedUserWorld : World where
  readFile := fun _ => some "aucontents"
  parseJson := fun _ => some (.obj [("type", .str "authorized_user")])
  ParseServiceAccountP12File := fun _ => .error ⟨.kInvalidArgument, "p12 failure"⟩
  ParseAuthorizedUserCredentials := fun _ _ => .ok ⟨"id", "secret", "rt"⟩
  ParseServiceAccountCredentials := fun _ _ => .error ⟨.kInvalidArgument, "not sa"⟩
  adcEnvVarPath := "envpath"
  adcWellKnownPath := ""
  fileExists := fun _ => false
  RunningOnComputeEngineVm := false

/-- C1 counterexample: the claim that an authorized_user file resolved in
service-account-only mode yields the non-error sentinel is false — with
`non_service_account_ok = false` the authorized_user branch is skipped and
LoadCredsFromPath returns a hard "Unsupported credential type" error. -/
theorem authorized_user_sentinel_claim_false :
    ¬ (∀ (w : World) (path contents : String) (j : NlJson)
        (scopes : Option (List String)) (subject : Option String),
        w.readFile path = some contents → w.parseJson contents = some j →
        jvalueStr j "type" "no type given" = .ok "authorized_user" →
        LoadCredsFromPath w path false scopes subject = .ok none) := by
  intro h
  have hcl := h authorizedUserWorld "envpath" "aucontents"
    (.obj [("type", .str "authorized_user")]) none none rfl rfl rfl
  have heq : LoadCredsFromPath authorizedUserWorld "envpath" false none none =
      .error (.status ⟨.kInvalidArgument,
        "Unsupported credential type (" ++ "authorized_user" ++
        ") when reading Application Default Credentials file from " ++ "envpath" ++ "."⟩) :=
    rfl
  rw [heq] at hcl
  exact Except.noConfusion hcl

/-- C1 (amended): for an authorized_user credentials file, the non-error
sentinel is returned exactly when the caller permitted non-service-account
credentials (`non_service_account_ok = true`) and supplied scopes or subject
overrides; in service-account-only mode (`non_service_account_ok = false`)
the file is instead rejected with a hard "Unsupported credential type
(authorized_user)" error. -/
theorem authorized_user_sentinel_amended (w : World) (path contents : String)
    (j : NlJson)
    (hr : w.readFile path = some contents)
    (hj : w.parseJson contents = some j)
    (ht : jvalueStr j "type" "no type given" = .ok "authorized_user") :
    (∀ (ok' : Bool) (scopes : Option (List String)) (subject : Option String),
       LoadCredsFromPath w path ok' scopes subject = .ok none ↔
       (ok' = true ∧ (scopes.isSome ∨ subject.isSome))) ∧
    (∀ (scopes : Option (List String)) (subject : Option String),
       LoadCredsFromPath w path false scopes subject =
         .error (.status ⟨.kInvalidArgument,
           "Unsupported credential type (" ++ "authorized_user" ++
           ") when reading Application Default Credentials file from " ++ path ++ "."⟩)) := by
  constructor
  · intro ok' scopes subject
    cases ok' with
    | false => simp [LoadCredsFromPath, hr, hj, ht]
    | true =>
      by_cases hov : scopes.isSome ∨ subject.isSome
      · simp [LoadCredsFromPath, hr, hj, ht, hov]
      · cases hau : w.ParseAuthorizedUserCredentials contents path with
        | error s => simp [LoadCredsFromPath, hr, hj, ht, hov, hau]
        | ok info => simp [LoadCredsFromPath, hr, hj, ht, hov, hau]
  · intro scopes subject
    simp [LoadCredsFromPath, hr, hj, ht]

/-- Witness for the amended C1 at a concrete world: the sentinel condition in
general mode with a scopes override, and the unconditional hard error in
service-account-only mode without overrides. -/
theorem authorized_user_sentinel_amended_witness :
    (LoadCredsFromPath authorizedUserWorld "envpath" true (some ["read"]) none = .ok none ↔
      (true = true ∧
        ((some ["read"] : Option (List String)).isSome ∨ (none : Option String).isSome))) ∧
    LoadCredsFromPath authorizedUserWorld "envpath" false none none =
      .error (.status ⟨.kInvalidArgument,
        "Unsupported credential type (" ++ "authorized_user" ++
        ") when reading Application Default Credentials file from " ++ "envpath" ++ "."⟩) := by
  have h := authorized_user_sentinel_amended authorizedUserWorld "envpath" "aucontents"
    (.obj [("type", .str "authorized_user")]) rfl rfl rfl
  exact ⟨h.1 true (some ["read"]) none, h.2 none none⟩

/-- Helper: without caller overrides, `LoadCredsFromPath` never returns the
null sentinel — the sentinel branch requires a scopes or subject override. -/
lemma LoadCredsFromPath_no_overrides_no_sentinel (w : World) (path : String)
    (ok' : Bool) : LoadCredsFromPath w path ok' none none ≠ .ok none := by
  unfold LoadCredsFromPath
  split
  · simp
  · split
    · split
      · simp
      · simp
    · split
      · simp
      · split
        · simp only [Option.isSome_none, Bool.false_eq_true, or_self, if_false]
          split <;> simp
        · split
          · split <;> simp
          · simp

/-- Replace the resolver-environment fields (well-known ADC path, existence
probe, GCE probe) of a world, leaving the file collaborators and the
environment variable unchanged. -/
def World.withResolverEnv (w : World) (wk : String) (fe : String → Bool)
    (gce : Bool) : World :=
  { w with adcWellKnownPath := wk,
           fileExists := fe,
           RunningOnComputeEngineVm := gce }

/-- Helper: with the environment variable set to a non-empty path,
`GoogleDefaultCredentials` is exactly the env-path load followed by the
GCE fallback. -/
lemma GoogleDefaultCredentials_env (w : World) (henv : ¬ w.adcEnvVarPath = "") :
    GoogleDefaultCredentials w =
      match LoadCredsFromPath w w.adcEnvVarPath true none none with
      | .error e => .error e
      | .ok (some creds) => .ok creds
      | .ok none =>
        if w.RunningOnComputeEngineVm = true then .ok (.computeEngine none)
        else .error (.status ⟨.kUnknown,
          "Could not automatically determine credentials. For more information, please see "
            ++ kAdcLink⟩) := by
  unfold GoogleDefaultCredentials MaybeLoadCredsFromAdcPaths
  rw [if_neg henv]

/-- C5: when the environment variable designates a non-empty explicit
credentials file path, resolution is decided entirely by loading exactly that
file: the result of `GoogleDefaultCredentials` is unchanged by the well-known
ADC path, its existence probe, and the compute-engine probe; every failure of
that load is returned unchanged as a hard error; and every loaded credential
is returned as the result. -/
theorem google_default_credentials_env_path_hard (w : World)
    (henv : ¬ w.adcEnvVarPath = "") :
    (∀ wk fe gce, GoogleDefaultCredentials (w.withResolverEnv wk fe gce) =
      GoogleDefaultCredentials w) ∧
    (∀ e, LoadCredsFromPath w w.adcEnvVarPath true none none = .error e →
      GoogleDefaultCredentials w = .error e) ∧
    (∀ c, LoadCredsFromPath w w.adcEnvVarPath true none none = .ok (some c) →
      GoogleDefaultCredentials w = .ok c) := by
  refine ⟨?_, ?_, ?_⟩
  · intro wk fe gce
    rw [GoogleDefaultCredentials_env w henv,
      GoogleDefaultCredentials_env (w.withResolverEnv wk fe gce) henv]
    have hload : LoadCredsFromPath (w.withResolverEnv wk fe gce)
        (w.withResolverEnv wk fe gce).adcEnvVarPath true none none =
        LoadCredsFromPath w w.adcEnvVarPath true none none := rfl
    rw [hload]
    cases hl : LoadCredsFromPath w w.adcEnvVarPath true none none with
    | error e => rfl
    | ok oc =>
      cases oc with
      | some c => rfl
      | none => exact absurd hl (LoadCredsFromPath_no_overrides_no_sentinel w _ true)
  · intro e he
    rw [GoogleDefaultCredentials_env w henv, he]
  · intro c hc
    rw [GoogleDefaultCredentials_env w henv, hc]

/-- Witness for C5: varying the well-known path, the existence probe and the
GCE probe leaves the result unchanged, and the env-path load's result is
surfaced directly. -/
theorem google_default_credentials_env_path_hard_witness :
    GoogleDefaultCredentials
        (authorizedUserWorld.withResolverEnv "wk" (fun _ => true) true) =
      GoogleDefaultCredentials authorizedUserWorld ∧
    GoogleDefaultCredentials authorizedUserWorld =
      .ok (.authorizedUser ⟨"id", "secret", "rt"⟩) := by
  have henv : ¬ authorizedUserWorld.adcEnvVarPath = "" := by
    intro h
    simp [authorizedUserWorld] at h
  constructor
  · exact (google_default_credentials_env_path_hard authorizedUserWorld henv).1
      "wk" (fun _ => true) true
  · exact (google_default_credentials_env_path_hard authorizedUserWorld henv).2.2
      (.authorizedUser ⟨"id", "secret", "rt"⟩) rfl

/-- C7: caller-supplied scopes and subject overrides are applied after
parsing and yield exactly the caller-supplied values in the constructed
service-account credential, regardless of what the parsed file declared,
both in LoadCredsFromPath's service_account branch and in
CreateServiceAccountCredentialsFromJsonFilePath. -/
theorem caller_overrides_win (w : World) (path contents : String) (j : NlJson)
    (scopes : Option (List String)) (subject : Option String)
    (info : ServiceAccountCredentialsInfo)
    (hr : w.readFile path = some contents)
    (hj : w.parseJson contents = some j)
    (ht : jvalueStr j "type" "no type given" = .ok "service_account")
    (hsa : w.ParseServiceAccountCredentials contents path = .ok info) :
    (∀ ok', LoadCredsFromPath w path ok' scopes subject =
       .ok (some (.serviceAccount
         { info with subject := subject, scopes := scopes }))) ∧
    CreateServiceAccountCredentialsFromJsonFilePath w path scopes subject =
      .ok (.serviceAccount { info with subject := subject, scopes := scopes }) := by
  constructor
  · intro ok'
    simp [LoadCredsFromPath, hr, hj, ht, hsa]
  · simp [CreateServiceAccountCredentialsFromJsonFilePath, hr, hsa]

/-- A concrete world whose file parses as a service_account JSON file, with
file-declared scopes and subject that must lose to the caller's overrides. -/
def serviceAccountWorld : World where
  readFile := fun _ => some "sacontents"
  parseJson := fun _ => some (.obj [("type", .str "service_account")])
  ParseServiceAccountP12File := fun _ => .error ⟨.kInvalidArgument, "p12 failure"⟩
  ParseAuthorizedUserCredentials := fun _ _ => .error ⟨.kInvalidArgument, "not au"⟩
  ParseServiceAccountCredentials := fun _ _ =>
    .ok ⟨"sa@example", "kid", "key", "uri", some ["filescope"], some "filesubject"⟩
  adcEnvVarPath := ""
  adcWellKnownPath := ""
  fileExists := fun _ => false
  RunningOnComputeEngineVm := false

/-- Witness for C7: the caller's scopes override replaces the file-declared
scopes, and the absent caller subject clears the file-declared subject. -/
theorem caller_overrides_win_witness :
    LoadCredsFromPath serviceAccountWorld "p" true (some ["read"]) none =
      .ok (some (.serviceAccount
        ⟨"sa@example", "kid", "key", "uri", some ["read"], none⟩)) ∧
    CreateServiceAccountCredentialsFromJsonFilePath serviceAccountWorld "p"
        (some ["read"]) none =
      .ok (.serviceAccount ⟨"sa@example", "kid", "key", "uri", some ["read"], none⟩) := by
  have h := caller_overrides_win serviceAccountWorld "p" "sacontents"
    (.obj [("type", .str "service_account")]) (some ["read"]) none
    ⟨"sa@example", "kid", "key", "uri", some ["filescope"], some "filesubject"⟩
    rfl rfl rfl rfl
  exact ⟨h.1 true, h.2⟩

/-- C10: CreateServiceAccountCredentialsFromFilePath returns the JSON
attempt's credentials when that attempt succeeds; on any JSON-attempt failure
the JSON error is discarded and the entire result of the P12 attempt (its
credentials or its error) is returned instead. -/
theorem from_file_path_json_then_p12 (w : World) (path : String)
    (scopes : Option (List String)) (subject : Option String) :
    (∀ c, CreateServiceAccountCredentialsFromJsonFilePath w path scopes subject = .ok c →
       CreateServiceAccountCredentialsFromFilePath w path scopes subject = .ok c) ∧
    (∀ e, CreateServiceAccountCredentialsFromJsonFilePath w path scopes subject = .error e →
       CreateServiceAccountCredentialsFromFilePath w path scopes subject =
         CreateServiceAccountCredentialsFromP12FilePath w path scopes subject) := by
  constructor
  · intro c hc
    unfold CreateServiceAccountCredentialsFromFilePath
    simp only [hc]
  · intro e he
    unfold CreateServiceAccountCredentialsFromFilePath
    simp only [he]

/-- Witness for C10: a successful JSON attempt is returned directly, and a
failing JSON attempt falls back to the whole P12 result (here: its error). -/
theorem from_file_path_json_then_p12_witness :
    CreateServiceAccountCredentialsFromFilePath serviceAccountWorld "p" none none =
      .ok (.serviceAccount ⟨"sa@example", "kid", "key", "uri", none, none⟩) ∧
    CreateServiceAccountCredentialsFromFilePath authorizedUserWorld "p" none none =
      CreateServiceAccountCredentialsFromP12FilePath authorizedUserWorld "p" none none := by
  constructor
  · exact (from_file_path_json_then_p12 serviceAccountWorld "p" none none).1
      (.serviceAccount ⟨"sa@example", "kid", "key", "uri", none, none⟩) rfl
  · exact (from_file_path_json_then_p12 authorizedUserWorld "p" none none).2
      (.status ⟨.kInvalidArgument, "not sa"⟩) rfl

end GoogleCreds
